import Mathlib

/-!
Shallow embedding of the BusTub buffer pool manager and LRU replacer
(`src/buffer/buffer_pool_manager.cpp`, `src/buffer/lru_replacer.cpp`).

Modelling conventions:
* `page_id_t` and `frame_id_t` are both `int32_t` in the source; both are
  modelled as `Int` (the source itself mixes them: `DeletePageImpl` pushes a
  page id into the frame-id free list, which compiles because both are ints).
* A page's byte buffer is modelled as `List Nat`; `ResetMemory` zeroes it to
  `PAGE_SIZE` zero bytes.
* The disk manager is modelled as a state carrying page contents, the
  monotonic allocation counter, and a trace of every disk-manager call made
  (`ReadPage` / `WritePage` / `AllocatePage` / `DeallocatePage`), in call
  order.  Claims about which I/O an operation issues are read off the trace.
* `std::unordered_map<page_id_t, frame_id_t> page_table_` is modelled as an
  association list with unique keys; `operator[]` assignment, `erase` and
  `find` are `ptInsert`, `ptErase` and `ptLookup`.  Key order is irrelevant:
  only lookups observe the table.
* The LRU replacer keeps `lru_list` (front = most recently unpinned, back =
  victim end, as in the source's `push_front` / `pop_back`).  The source's
  `lruMap` is an O(1) membership/position index that the code keeps exactly
  in sync with the list (every insert/erase touches both), so membership in
  `lru_list` models `lruMap.count`/`lruMap.find`.
* The pool latch and the replacer latch only serialize operations; each
  public operation is modelled as one atomic state transition.
* `pages_` is an array of exactly `pool_size_` frames allocated in the
  constructor and never resized, so `pool_size_` is `pages_.length` and the
  source's loop over frame indices `0 .. pool_size_-1` is an in-order
  traversal of the list.
-/

def PAGE_SIZE : Nat := 4096

def INVALID_PAGE_ID : Int := -1

/-- Page byte buffer. -/
abbrev Buf : Type := List Nat

/-- The all-zero buffer produced by `Page::ResetMemory()`. -/
def zeroBuf : Buf := List.replicate PAGE_SIZE 0

/-- One disk-manager call, recorded in call order. -/
inductive DiskOp where
  | read (pid : Int)
  | write (pid : Int) (data : Buf)
  | alloc (pid : Int)
  | dealloc (pid : Int)
deriving DecidableEq

/-- State of the disk manager: page contents (association list, unwritten
pages read as zeroes), the monotonic next page id for `AllocatePage`, and the
trace of calls made so far. -/
structure DiskState where
  contents : List (Int × Buf)
  next_page_id : Int
  trace : List DiskOp
deriving DecidableEq

def bufLookup : List (Int × Buf) → Int → Option Buf
  | [], _ => none
  | (k, v) :: rest, pid => if k = pid then some v else bufLookup rest pid

/-- `DiskManager::ReadPage`: returns the page's bytes and records the call. -/
def readPage (dm : DiskState) (pid : Int) : Buf × DiskState :=
  ((bufLookup dm.contents pid).getD zeroBuf,
   { dm with trace := dm.trace ++ [DiskOp.read pid] })

/-- `DiskManager::WritePage`: stores the bytes and records the call. -/
def writePage (dm : DiskState) (pid : Int) (data : Buf) : DiskState :=
  { dm with
    contents := (pid, data) :: dm.contents.filter (fun e => e.1 ≠ pid),
    trace := dm.trace ++ [DiskOp.write pid data] }

/-- `DiskManager::AllocatePage`: returns a fresh monotonic page id. -/
def allocatePage (dm : DiskState) : Int × DiskState :=
  (dm.next_page_id,
   { dm with
     next_page_id := dm.next_page_id + 1,
     trace := dm.trace ++ [DiskOp.alloc dm.next_page_id] })

/-- `DiskManager::DeallocatePage`: records the call. -/
def deallocatePage (dm : DiskState) (pid : Int) : DiskState :=
  { dm with trace := dm.trace ++ [DiskOp.dealloc pid] }

/-- One frame of the buffer pool (the `Page` class fields the manager uses). -/
structure Page where
  page_id_ : Int
  pin_count_ : Int
  is_dirty_ : Bool
  data_ : Buf
deriving DecidableEq

/-- A freshly constructed `Page`: empty frame (no page, pin 0, clean, zeroed
buffer). -/
def Page.empty : Page :=
  { page_id_ := INVALID_PAGE_ID, pin_count_ := 0, is_dirty_ := false,
    data_ := zeroBuf }

/-- LRU replacer state (`src/buffer/lru_replacer.cpp`): capacity set at
construction and the list of tracked frames, most recently unpinned first. -/
structure LRUReplacer where
  capacity : Nat
  lru_list : List Int
deriving DecidableEq

/-- `LRUReplacer::Victim`: if the list is empty return `none`; else remove
and return the back (least recently unpinned) element. -/
def LRUReplacer.Victim (r : LRUReplacer) : Option Int × LRUReplacer :=
  match r.lru_list.getLast? with
  | none => (none, r)
  | some f => (some f, { r with lru_list := r.lru_list.dropLast })

/-- `LRUReplacer::Pin`: if the frame is tracked, remove it (`std::list::remove`
erases every equal element); else no-op. -/
def LRUReplacer.Pin (r : LRUReplacer) (frame_id : Int) : LRUReplacer :=
  if frame_id ∈ r.lru_list then
    { r with lru_list := r.lru_list.filter (fun x => x ≠ frame_id) }
  else r

/-- `LRUReplacer::Unpin`: no-op if already tracked; else drop the back element
when at capacity, then push the frame at the front. -/
def LRUReplacer.Unpin (r : LRUReplacer) (frame_id : Int) : LRUReplacer :=
  if frame_id ∈ r.lru_list then r
  else
    let r1 := if r.capacity ≤ r.lru_list.length
              then { r with lru_list := r.lru_list.dropLast }
              else r
    { r1 with lru_list := frame_id :: r1.lru_list }

/-- `LRUReplacer::Size`. -/
def LRUReplacer.Size (r : LRUReplacer) : Nat := r.lru_list.length

/-- Buffer pool manager state.  `pool_size_` is `pages_.length` (the
constructor allocates exactly `pool_size_` frames; nothing resizes). -/
structure BufferPoolManager where
  pages_ : List Page
  page_table_ : List (Int × Int)
  free_list_ : List Int
  replacer_ : LRUReplacer
deriving DecidableEq

/-- `page_table_.find` / lookup. -/
def ptLookup : List (Int × Int) → Int → Option Int
  | [], _ => none
  | (k, v) :: rest, pid => if k = pid then some v else ptLookup rest pid

/-- `page_table_.erase(key)`. -/
def ptErase (m : List (Int × Int)) (k : Int) : List (Int × Int) :=
  m.filter (fun e => e.1 ≠ k)

/-- `page_table_[key] = value` (`operator[]` assignment: update in place if
present, else insert). -/
def ptInsert (m : List (Int × Int)) (k v : Int) : List (Int × Int) :=
  if (ptLookup m k).isSome then
    m.map (fun e => if e.1 = k then (k, v) else e)
  else m ++ [(k, v)]

/-- `pages_[f]` (frame ids produced by the free list / replacer are always in
`[0, pool_size)`; out-of-range access is C++ UB and never exercised by the
theorems below). -/
def getPage (ps : List Page) (f : Int) : Page := ps.getD f.toNat Page.empty

/-- Write back `pages_[f]`. -/
def setPage (ps : List Page) (f : Int) (p : Page) : List Page :=
  ps.set f.toNat p

/-- The victim-selection block shared verbatim by `FetchPageImpl` and
`NewPageImpl`: pop the free list front if non-empty, else ask the replacer;
`none` when both are empty (every frame pinned). -/
def pickVictim (bpm : BufferPoolManager) : Option (Int × BufferPoolManager) :=
  match bpm.free_list_ with
  | frame_id :: rest => some (frame_id, { bpm with free_list_ := rest })
  | [] =>
    match LRUReplacer.Victim bpm.replacer_ with
    | (none, _) => none
    | (some frame_id, r) => some (frame_id, { bpm with replacer_ := r })

/-- The tail of `BufferPoolManager::FetchPageImpl` after a victim frame was
obtained.  Note: the source never uses the requested `page_id` here — the
dirty write-back, the page-table erase and insert, and the final `ReadPage`
all use `re_page_->page_id_`, the victim frame's *prior* occupant id, and
neither `pin_count_` nor `page_id_` is assigned. -/
def fetchInstall (bpm : BufferPoolManager) (dm : DiskState)
    (page_id frame_id : Int) : Option Int × BufferPoolManager × DiskState :=
  let _ := page_id
  let rp := getPage bpm.pages_ frame_id
  let (rp, dm) :=
    if rp.is_dirty_ then
      ({ rp with is_dirty_ := false }, writePage dm rp.page_id_ rp.data_)
    else (rp, dm)
  let pt := ptInsert (ptErase bpm.page_table_ rp.page_id_) rp.page_id_ frame_id
  let rp := { rp with data_ := zeroBuf }
  let (buf, dm) := readPage dm rp.page_id_
  let rp := { rp with data_ := buf }
  (some frame_id,
   { bpm with pages_ := setPage bpm.pages_ frame_id rp, page_table_ := pt },
   dm)

/-- `BufferPoolManager::FetchPageImpl`.  Returns the frame id of the returned
`Page*` (or `none` for `nullptr`) together with the new pool and disk
states. -/
def FetchPageImpl (bpm : BufferPoolManager) (dm : DiskState) (page_id : Int) :
    Option Int × BufferPoolManager × DiskState :=
  match ptLookup bpm.page_table_ page_id with
  | some frame_id =>
    let p := getPage bpm.pages_ frame_id
    (some frame_id,
     { bpm with
       replacer_ := LRUReplacer.Pin bpm.replacer_ frame_id,
       pages_ := setPage bpm.pages_ frame_id
                   { p with pin_count_ := p.pin_count_ + 1 } },
     dm)
  | none =>
    match pickVictim bpm with
    | none => (none, bpm, dm)
    | some (frame_id, bpm1) => fetchInstall bpm1 dm page_id frame_id

/-- `BufferPoolManager::UnpinPageImpl`.  No disk-manager call appears in the
source, so the model neither takes nor returns a `DiskState`. -/
def UnpinPageImpl (bpm : BufferPoolManager) (page_id : Int) (is_dirty : Bool) :
    Bool × BufferPoolManager :=
  match ptLookup bpm.page_table_ page_id with
  | none => (false, bpm)
  | some frame_id =>
    let u := getPage bpm.pages_ frame_id
    if u.pin_count_ = 0 then (false, bpm)
    else
      let u := { u with pin_count_ := u.pin_count_ - 1 }
      let repl := if u.pin_count_ = 0
                  then LRUReplacer.Unpin bpm.replacer_ frame_id
                  else bpm.replacer_
      let u := if is_dirty then { u with is_dirty_ := true } else u
      (true,
       { bpm with pages_ := setPage bpm.pages_ frame_id u, replacer_ := repl })

/-- `BufferPoolManager::FlushPageImpl`: on a resident page, write its bytes at
`page_id` and return true; the frame itself (its dirty bit included) is not
modified by the source. -/
def FlushPageImpl (bpm : BufferPoolManager) (dm : DiskState) (page_id : Int) :
    Bool × BufferPoolManager × DiskState :=
  match ptLookup bpm.page_table_ page_id with
  | none => (false, bpm, dm)
  | some frame_id =>
    let fp := getPage bpm.pages_ frame_id
    (true, bpm, writePage dm page_id fp.data_)

/-- `BufferPoolManager::NewPageImpl`.  Returns `(allocated page id, frame id)`
on success.  The source assigns `re_page_->page_id_ = *page_id` *before* the
dirty check and table update, so the dirty write-back, erase and insert all
use the freshly allocated id, and a `ReadPage` of it is issued at the end. -/
def NewPageImpl (bpm : BufferPoolManager) (dm : DiskState) :
    Option (Int × Int) × BufferPoolManager × DiskState :=
  match pickVictim bpm with
  | none => (none, bpm, dm)
  | some (frame_id, bpm1) =>
    let (pid, dm) := allocatePage dm
    let rp := getPage bpm1.pages_ frame_id
    let rp := { rp with page_id_ := pid }
    let (rp, dm) :=
      if rp.is_dirty_ then
        ({ rp with is_dirty_ := false }, writePage dm rp.page_id_ rp.data_)
      else (rp, dm)
    let pt := ptInsert (ptErase bpm1.page_table_ rp.page_id_) rp.page_id_ frame_id
    let rp := { rp with data_ := zeroBuf }
    let (buf, dm) := readPage dm rp.page_id_
    let rp := { rp with data_ := buf }
    (some (pid, frame_id),
     { bpm1 with pages_ := setPage bpm1.pages_ frame_id rp, page_table_ := pt },
     dm)

/-- `BufferPoolManager::DeletePageImpl`.  On a resident unpinned page the
source zeroes the buffer (`ResetMemory` only — `page_id_`, `pin_count_`,
`is_dirty_` are left as they were), erases the page-table entry, calls
`DeallocatePage`, and pushes `page_id` (the *page* id) onto the free list. -/
def DeletePageImpl (bpm : BufferPoolManager) (dm : DiskState) (page_id : Int) :
    Bool × BufferPoolManager × DiskState :=
  match ptLookup bpm.page_table_ page_id with
  | none => (true, bpm, dm)
  | some frame_id =>
    let dp := getPage bpm.pages_ frame_id
    if dp.pin_count_ ≠ 0 then (false, bpm, dm)
    else
      let dp := { dp with data_ := zeroBuf }
      (true,
       { bpm with
         pages_ := setPage bpm.pages_ frame_id dp,
         page_table_ := ptErase bpm.page_table_ page_id,
         free_list_ := bpm.free_list_ ++ [page_id] },
       deallocatePage dm page_id)

/-- The loop body of `FlushAllPagesImpl` over frames in index order: a frame
with a valid page id and a set dirty bit is written out and its dirty bit
cleared; other frames are untouched. -/
def flushFrames : List Page → DiskState → List Page × DiskState
  | [], dm => ([], dm)
  | p :: ps, dm =>
    if p.page_id_ ≠ INVALID_PAGE_ID ∧ p.is_dirty_ then
      let dm1 := writePage dm p.page_id_ p.data_
      let r := flushFrames ps dm1
      ({ p with is_dirty_ := false } :: r.1, r.2)
    else
      let r := flushFrames ps dm
      (p :: r.1, r.2)

/-- `BufferPoolManager::FlushAllPagesImpl`: iterate frame indices
`0 .. pool_size_-1` (= the `pages_` array in order). -/
def FlushAllPagesImpl (bpm : BufferPoolManager) (dm : DiskState) :
    BufferPoolManager × DiskState :=
  let r := flushFrames bpm.pages_ dm
  ({ bpm with pages_ := r.1 }, r.2)

/-- The constructor `BufferPoolManager(pool_size, ...)`: `pool_size` fresh
frames, empty page table, every frame id on the free list in order, an
`LRUReplacer(pool_size)`. -/
def mkPool (pool_size : Nat) : BufferPoolManager :=
  { pages_ := List.replicate pool_size Page.empty,
    page_table_ := [],
    free_list_ := (List.range pool_size).map Int.ofNat,
    replacer_ := { capacity := pool_size, lru_list := [] } }

/-!  Concrete states used by the claim theorems.  Each claim has its own
states so that no two claims' theorems depend on shared scenario data. -/

/-- C1 scenario: a fresh single-frame pool; page 5 exists on disk. -/
def bpmC1 : BufferPoolManager := mkPool 1

def dmC1 : DiskState := { contents := [(5, [7, 7, 7])], next_page_id := 6, trace := [] }

/-- C1: on a miss, `FetchPageImpl` never uses the requested page id: after
`fetch(5)` into free frame 0 the frame still has `page_id_ = INVALID_PAGE_ID`
and `pin_count_ = 0`, the page table does not map 5 (it maps the victim's old
id `-1` instead), and the disk read is issued for page `-1`, not 5. -/
theorem fetch_miss_ignores_requested_page :
    (FetchPageImpl bpmC1 dmC1 5).1 = some 0
    ∧ (getPage (FetchPageImpl bpmC1 dmC1 5).2.1.pages_ 0).page_id_ = INVALID_PAGE_ID
    ∧ (getPage (FetchPageImpl bpmC1 dmC1 5).2.1.pages_ 0).pin_count_ = 0
    ∧ ptLookup (FetchPageImpl bpmC1 dmC1 5).2.1.page_table_ 5 = none
    ∧ (FetchPageImpl bpmC1 dmC1 5).2.1.page_table_ = [(INVALID_PAGE_ID, 0)]
    ∧ (FetchPageImpl bpmC1 dmC1 5).2.2.trace = [DiskOp.read INVALID_PAGE_ID] :=
  ⟨rfl, rfl, rfl, rfl, rfl, rfl⟩

/-- C2 scenario: one frame holding dirty page 7 (pin 0, in the replacer, free
list empty); the next allocated page id is 8. -/
def bpmC2 : BufferPoolManager :=
  { pages_ := [{ page_id_ := 7, pin_count_ := 0, is_dirty_ := true, data_ := [9, 9] }],
    page_table_ := [(7, 0)], free_list_ := [],
    replacer_ := { capacity := 1, lru_list := [0] } }

def dmC2 : DiskState := { contents := [(7, [1, 1])], next_page_id := 8, trace := [] }

/-- C2: in `NewPageImpl` the victim's dirty bytes are written to disk at the
*new* page id 8 (because `page_id_` is overwritten before the dirty check),
not at the prior occupant's id 7: the trace holds `write 8 [9,9]` and no
write of page 7 at all. -/
theorem newPage_dirty_write_wrong_page :
    (NewPageImpl bpmC2 dmC2).1 = some (8, 0)
    ∧ (NewPageImpl bpmC2 dmC2).2.2.trace
        = [DiskOp.alloc 8, DiskOp.write 8 [9, 9], DiskOp.read 8]
    ∧ DiskOp.write 7 [9, 9] ∉ (NewPageImpl bpmC2 dmC2).2.2.trace :=
  ⟨rfl, rfl, by decide⟩

/-- C3 scenario: a fresh single-frame pool and an empty disk. -/
def bpmC3 : BufferPoolManager := mkPool 1

def dmC3 : DiskState := { contents := [], next_page_id := 0, trace := [] }

/-- C3: a successful `NewPageImpl` issues a `ReadPage` call for the freshly
allocated page id (the trace of `new_page()` on an empty pool is
`[alloc 0, read 0]`), contradicting the no-disk-read claim. -/
theorem newPage_issues_disk_read :
    (NewPageImpl bpmC3 dmC3).1 = some (0, 0)
    ∧ (NewPageImpl bpmC3 dmC3).2.2.trace = [DiskOp.alloc 0, DiskOp.read 0]
    ∧ DiskOp.read 0 ∈ (NewPageImpl bpmC3 dmC3).2.2.trace :=
  ⟨rfl, rfl, by decide⟩

/-- C4 scenario: page 5 resident at frame 0, unpinned and dirty (so frame 0
is in the replacer); frame 1 is free. -/
def bpmC4 : BufferPoolManager :=
  { pages_ := [{ page_id_ := 5, pin_count_ := 0, is_dirty_ := true, data_ := [4] },
               Page.empty],
    page_table_ := [(5, 0)], free_list_ := [1],
    replacer_ := { capacity := 2, lru_list := [0] } }

def dmC4 : DiskState := { contents := [], next_page_id := 6, trace := [] }

/-- C4: `DeletePageImpl 5` returns true, erases the table entry and calls
`DeallocatePage(5)`, but it appends the *page* id 5 (not the frame id 0) to
the free list, leaves `page_id_ = 5` and `is_dirty_ = true` on the frame, and
leaves frame 0 in the replacer. -/
theorem deletePage_skips_reset_and_pushes_page_id :
    (DeletePageImpl bpmC4 dmC4 5).1 = true
    ∧ (DeletePageImpl bpmC4 dmC4 5).2.1.free_list_ = [1, 5]
    ∧ (getPage (DeletePageImpl bpmC4 dmC4 5).2.1.pages_ 0).page_id_ = 5
    ∧ (getPage (DeletePageImpl bpmC4 dmC4 5).2.1.pages_ 0).is_dirty_ = true
    ∧ (DeletePageImpl bpmC4 dmC4 5).2.1.replacer_.lru_list = [0]
    ∧ ptLookup (DeletePageImpl bpmC4 dmC4 5).2.1.page_table_ 5 = none
    ∧ (DeletePageImpl bpmC4 dmC4 5).2.2.trace = [DiskOp.dealloc 5] :=
  ⟨rfl, rfl, rfl, rfl, rfl, rfl, rfl⟩

/-- C5 scenario: dirty page 3 resident at frame 0 with pin count 1. -/
def bpmC5 : BufferPoolManager :=
  { pages_ := [{ page_id_ := 3, pin_count_ := 1, is_dirty_ := true, data_ := [2] }],
    page_table_ := [(3, 0)], free_list_ := [],
    replacer_ := { capacity := 1, lru_list := [] } }

def dmC5 : DiskState := { contents := [], next_page_id := 4, trace := [] }

/-- C5 counterexample: `FlushPageImpl` on resident page 3 returns true and
writes the bytes, but the frame's dirty bit is still set afterwards — the
claim's "clears the frame's dirty bit" is false. -/
theorem flush_leaves_dirty_bit :
    (FlushPageImpl bpmC5 dmC5 3).1 = true
    ∧ (FlushPageImpl bpmC5 dmC5 3).2.2.trace = [DiskOp.write 3 [2]]
    ∧ (getPage (FlushPageImpl bpmC5 dmC5 3).2.1.pages_ 0).is_dirty_ = true :=
  ⟨rfl, rfl, rfl⟩

/-- C5 (amended): `flush(page_id)` returns false and changes nothing when the
page is absent; otherwise it writes the resident frame's bytes to disk at
`page_id` and returns true regardless of the pin count, leaving the whole
pool state — the dirty bit included — unchanged. -/
theorem flush_spec_amended (bpm : BufferPoolManager) (dm : DiskState) (pid : Int) :
    (ptLookup bpm.page_table_ pid = none → FlushPageImpl bpm dm pid = (false, bpm, dm))
    ∧ (∀ f, ptLookup bpm.page_table_ pid = some f →
        FlushPageImpl bpm dm pid
          = (true, bpm, writePage dm pid (getPage bpm.pages_ f).data_)) := by
  constructor
  · intro h
    simp [FlushPageImpl, h]
  · intro f h
    simp [FlushPageImpl, h]

/-- C5 witness: the amended flush spec applied to the concrete C5 scenario. -/
theorem flush_spec_amended_witness :
    ptLookup bpmC5.page_table_ 3 = some 0
    ∧ FlushPageImpl bpmC5 dmC5 3
        = (true, bpmC5, writePage dmC5 3 (getPage bpmC5.pages_ 0).data_) :=
  ⟨rfl, (flush_spec_amended bpmC5 dmC5 3).2 0 rfl⟩

/-!  Supporting lemmas for `FlushAllPagesImpl` (claim C6). -/

/-- Frames after the flush-all loop: exactly the occupied dirty frames get
their dirty bit cleared; every other field of every frame is untouched. -/
theorem flushFrames_fst (ps : List Page) (dm : DiskState) :
    (flushFrames ps dm).1 =
      ps.map (fun p =>
        if p.page_id_ ≠ INVALID_PAGE_ID ∧ p.is_dirty_
        then { p with is_dirty_ := false } else p) := by
  induction ps generalizing dm with
  | nil => rfl
  | cons p ps ih =>
    by_cases h : p.page_id_ ≠ INVALID_PAGE_ID ∧ p.is_dirty_
    · simp [flushFrames, h, ih]
    · simp [flushFrames, h, ih]

/-- Disk calls of the flush-all loop: one `WritePage` per occupied dirty
frame, at that frame's page id with that frame's bytes, in frame index
order; nothing else. -/
theorem flushFrames_trace (ps : List Page) (dm : DiskState) :
    (flushFrames ps dm).2.trace =
      dm.trace ++
        (ps.filter (fun p =>
            decide (p.page_id_ ≠ INVALID_PAGE_ID ∧ p.is_dirty_))).map
          (fun p => DiskOp.write p.page_id_ p.data_) := by
  induction ps generalizing dm with
  | nil => simp [flushFrames]
  | cons p ps ih =>
    by_cases h : p.page_id_ ≠ INVALID_PAGE_ID ∧ p.is_dirty_
    · simp [flushFrames, h, ih, writePage]
    · simp [flushFrames, h, ih]

/-- C6: `FlushAllPagesImpl` walks the frames in index order; it issues exactly
one `WritePage` for each frame with a valid page id and a set dirty bit (at
that frame's page id), clears exactly those dirty bits, issues no disk call
for clean or empty frames, and touches neither the page table, the free list
nor the replacer (in particular it performs no page-table lookup). -/
theorem flushAll_spec (bpm : BufferPoolManager) (dm : DiskState) :
    (FlushAllPagesImpl bpm dm).1.pages_ =
      bpm.pages_.map (fun p =>
        if p.page_id_ ≠ INVALID_PAGE_ID ∧ p.is_dirty_
        then { p with is_dirty_ := false } else p)
    ∧ (FlushAllPagesImpl bpm dm).2.trace =
        dm.trace ++
          (bpm.pages_.filter (fun p =>
              decide (p.page_id_ ≠ INVALID_PAGE_ID ∧ p.is_dirty_))).map
            (fun p => DiskOp.write p.page_id_ p.data_)
    ∧ (FlushAllPagesImpl bpm dm).1.page_table_ = bpm.page_table_
    ∧ (FlushAllPagesImpl bpm dm).1.free_list_ = bpm.free_list_
    ∧ (FlushAllPagesImpl bpm dm).1.replacer_ = bpm.replacer_ :=
  ⟨flushFrames_fst bpm.pages_ dm, flushFrames_trace bpm.pages_ dm, rfl, rfl, rfl⟩

/-!  Claim C7: capacity exhaustion. -/

/-- A victim frame is unobtainable exactly when the free list and the
replacer's tracked list are both empty. -/
theorem pickVictim_eq_none_iff (bpm : BufferPoolManager) :
    pickVictim bpm = none ↔
      bpm.free_list_ = [] ∧ bpm.replacer_.lru_list = [] := by
  unfold pickVictim LRUReplacer.Victim
  cases hfl : bpm.free_list_ with
  | cons f rest => simp
  | nil =>
    cases hl : bpm.replacer_.lru_list.getLast? with
    | none =>
      rw [List.getLast?_eq_none_iff] at hl
      simp [hl]
    | some f =>
      have : bpm.replacer_.lru_list ≠ [] := by
        intro he
        rw [he] at hl
        exact Option.noConfusion hl
      simp [this]

/-- C7: with `page_id` non-resident, `fetch(page_id)` returns none exactly
when the free list and the replacer are both empty, and in that case it
returns with the pool state and the disk state (its trace included) fully
unchanged; likewise `new_page()`, which also makes no `AllocatePage` call in
that case. -/
theorem capacity_exhaustion_spec (bpm : BufferPoolManager) (dm : DiskState)
    (pid : Int) (h : ptLookup bpm.page_table_ pid = none) :
    ((FetchPageImpl bpm dm pid).1 = none ↔
        bpm.free_list_ = [] ∧ bpm.replacer_.lru_list = [])
    ∧ (bpm.free_list_ = [] → bpm.replacer_.lru_list = [] →
        FetchPageImpl bpm dm pid = (none, bpm, dm))
    ∧ ((NewPageImpl bpm dm).1 = none ↔
        bpm.free_list_ = [] ∧ bpm.replacer_.lru_list = [])
    ∧ (bpm.free_list_ = [] → bpm.replacer_.lru_list = [] →
        NewPageImpl bpm dm = (none, bpm, dm)) := by
  have hfetch : ∀ v bpm1, pickVictim bpm = some (v, bpm1) →
      (FetchPageImpl bpm dm pid).1 = some v := by
    intro v bpm1 hv
    simp [FetchPageImpl, h, hv, fetchInstall]
  constructor
  · constructor
    · intro hnone
      by_contra hc
      rw [← pickVictim_eq_none_iff] at hc
      cases hpick : pickVictim bpm with
      | none => exact hc hpick
      | some p =>
        have := hfetch p.1 p.2 (by rw [hpick])
        rw [hnone] at this
        exact Option.noConfusion this
    · intro ⟨h1, h2⟩
      have hpick : pickVictim bpm = none := (pickVictim_eq_none_iff bpm).2 ⟨h1, h2⟩
      simp [FetchPageImpl, h, hpick]
  refine ⟨?_, ?_, ?_⟩
  · intro h1 h2
    have hpick : pickVictim bpm = none := (pickVictim_eq_none_iff bpm).2 ⟨h1, h2⟩
    simp [FetchPageImpl, h, hpick]
  · constructor
    · intro hnone
      by_contra hc
      rw [← pickVictim_eq_none_iff] at hc
      cases hpick : pickVictim bpm with
      | none => exact hc hpick
      | some p =>
        have : (NewPageImpl bpm dm).1 = some (dm.next_page_id, p.1) := by
          simp [NewPageImpl, hpick, allocatePage]
        rw [hnone] at this
        exact Option.noConfusion this
    · intro ⟨h1, h2⟩
      have hpick : pickVictim bpm = none := (pickVictim_eq_none_iff bpm).2 ⟨h1, h2⟩
      simp [NewPageImpl, hpick]
  · intro h1 h2
    have hpick : pickVictim bpm = none := (pickVictim_eq_none_iff bpm).2 ⟨h1, h2⟩
    simp [NewPageImpl, hpick]

/-- C7 scenario: a single frame pinned by page 5; free list and replacer
empty. -/
def bpmC7 : BufferPoolManager :=
  { pages_ := [{ page_id_ := 5, pin_count_ := 1, is_dirty_ := false, data_ := [1] }],
    page_table_ := [(5, 0)], free_list_ := [],
    replacer_ := { capacity := 1, lru_list := [] } }

def dmC7 : DiskState := { contents := [], next_page_id := 6, trace := [] }

/-- C7 witness: on the fully pinned single-frame pool, `fetch(9)` and
`new_page()` both return none with pool and disk state unchanged. -/
theorem capacity_exhaustion_spec_witness :
    ptLookup bpmC7.page_table_ 9 = none
    ∧ FetchPageImpl bpmC7 dmC7 9 = (none, bpmC7, dmC7)
    ∧ NewPageImpl bpmC7 dmC7 = (none, bpmC7, dmC7) :=
  ⟨rfl,
   (capacity_exhaustion_spec bpmC7 dmC7 9 rfl).2.1 rfl rfl,
   (capacity_exhaustion_spec bpmC7 dmC7 9 rfl).2.2.2 rfl rfl⟩

/-- C8: `unpin(page_id, dirty_flag)` returns false when the page is absent or
its pin count is already 0, leaving the pool untouched; otherwise it returns
true, decrements the pin count, ORs the dirty flag into the (sticky) dirty
bit, and hands the frame to the replacer's `Unpin` exactly when the
decremented pin count reaches 0. -/
theorem unpin_spec (bpm : BufferPoolManager) (pid : Int) (flag : Bool) :
    (ptLookup bpm.page_table_ pid = none → UnpinPageImpl bpm pid flag = (false, bpm))
    ∧ (∀ f, ptLookup bpm.page_table_ pid = some f →
        ((getPage bpm.pages_ f).pin_count_ = 0 →
          UnpinPageImpl bpm pid flag = (false, bpm))
        ∧ ((getPage bpm.pages_ f).pin_count_ ≠ 0 →
            UnpinPageImpl bpm pid flag =
              (true,
               { bpm with
                 pages_ := setPage bpm.pages_ f
                   { getPage bpm.pages_ f with
                     pin_count_ := (getPage bpm.pages_ f).pin_count_ - 1,
                     is_dirty_ := (getPage bpm.pages_ f).is_dirty_ || flag },
                 replacer_ :=
                   if (getPage bpm.pages_ f).pin_count_ - 1 = 0
                   then LRUReplacer.Unpin bpm.replacer_ f
                   else bpm.replacer_ }))) := by
  constructor
  · intro h
    simp [UnpinPageImpl, h]
  · intro f h
    constructor
    · intro h0
      simp [UnpinPageImpl, h, h0]
    · intro h0
      cases flag with
      | false => simp [UnpinPageImpl, h, h0]
      | true => simp [UnpinPageImpl, h, h0]

/-- C8 scenario: page 5 resident at frame 0 with pin count 2, clean. -/
def bpmC8 : BufferPoolManager :=
  { pages_ := [{ page_id_ := 5, pin_count_ := 2, is_dirty_ := false, data_ := [1] }],
    page_table_ := [(5, 0)], free_list_ := [],
    replacer_ := { capacity := 1, lru_list := [] } }

/-- C8 witness: the unpin spec applied to `unpin(5, true)` on the concrete C8
pool (pin 2 → 1, dirty bit set, replacer untouched since the count stays
positive). -/
theorem unpin_spec_witness :
    ptLookup bpmC8.page_table_ 5 = some 0
    ∧ (getPage bpmC8.pages_ 0).pin_count_ ≠ 0
    ∧ UnpinPageImpl bpmC8 5 true =
        (true,
         { bpmC8 with
           pages_ := setPage bpmC8.pages_ 0
             { getPage bpmC8.pages_ 0 with
               pin_count_ := (getPage bpmC8.pages_ 0).pin_count_ - 1,
               is_dirty_ := (getPage bpmC8.pages_ 0).is_dirty_ || true },
           replacer_ :=
             if (getPage bpmC8.pages_ 0).pin_count_ - 1 = 0
             then LRUReplacer.Unpin bpmC8.replacer_ 0
             else bpmC8.replacer_ }) :=
  ⟨rfl, by decide, (((unpin_spec bpmC8 5 true).2 0 rfl)).2 (by decide)⟩

/-- C9: `Victim` returns none exactly on an empty replacer; a successful
`Victim` removes and returns the back (least recently unpinned) element; and
after unpinning distinct untracked frames `f1, f2, f3` in that order into an
empty replacer with capacity at least 3, the tracked list is `[f3, f2, f1]`
and three successive `Victim` calls return `f1`, `f2`, `f3`. -/
theorem lru_replacer_spec (r : LRUReplacer) (f1 f2 f3 : Int)
    (hcap : 3 ≤ r.capacity) (hempty : r.lru_list = [])
    (h12 : f1 ≠ f2) (h13 : f1 ≠ f3) (h23 : f2 ≠ f3) :
    (∀ s : LRUReplacer, (LRUReplacer.Victim s).1 = none ↔ s.lru_list = [])
    ∧ (∀ s : LRUReplacer, ∀ v s', LRUReplacer.Victim s = (some v, s') →
        s.lru_list.getLast? = some v ∧ s'.lru_list = s.lru_list.dropLast)
    ∧ (((r.Unpin f1).Unpin f2).Unpin f3).lru_list = [f3, f2, f1]
    ∧ (LRUReplacer.Victim (((r.Unpin f1).Unpin f2).Unpin f3)).1 = some f1
    ∧ (LRUReplacer.Victim
        (LRUReplacer.Victim (((r.Unpin f1).Unpin f2).Unpin f3)).2).1 = some f2
    ∧ (LRUReplacer.Victim (LRUReplacer.Victim
        (LRUReplacer.Victim (((r.Unpin f1).Unpin f2).Unpin f3)).2).2).1 = some f3 := by
  have c1 : ¬ r.capacity ≤ 0 := by omega
  have c2 : ¬ r.capacity ≤ 1 := by omega
  have c3 : ¬ r.capacity ≤ 2 := by omega
  have e1 : r.Unpin f1 = { capacity := r.capacity, lru_list := [f1] } := by
    unfold LRUReplacer.Unpin
    rw [hempty]
    simp [c1, hempty]
  have e2 : (r.Unpin f1).Unpin f2
      = { capacity := r.capacity, lru_list := [f2, f1] } := by
    rw [e1]
    unfold LRUReplacer.Unpin
    simp [Ne.symm h12, c2]
  have e3 : ((r.Unpin f1).Unpin f2).Unpin f3
      = { capacity := r.capacity, lru_list := [f3, f2, f1] } := by
    rw [e2]
    unfold LRUReplacer.Unpin
    simp [Ne.symm h13, Ne.symm h23, c3]
  refine ⟨?_, ?_, ?_, ?_, ?_, ?_⟩
  · intro s
    unfold LRUReplacer.Victim
    cases hl : s.lru_list.getLast? with
    | none =>
      rw [List.getLast?_eq_none_iff] at hl
      simp [hl]
    | some v =>
      have hne : s.lru_list ≠ [] := by
        intro he
        rw [he] at hl
        exact Option.noConfusion hl
      simp [hne]
  · intro s v s' hv
    unfold LRUReplacer.Victim at hv
    cases hl : s.lru_list.getLast? with
    | none =>
      rw [hl] at hv
      simp at hv
    | some w =>
      rw [hl] at hv
      injection hv with hv1 hv2
      injection hv1 with hv1
      subst hv1
      subst hv2
      exact ⟨rfl, rfl⟩
  · rw [e3]
  · rw [e3]
    simp [LRUReplacer.Victim]
  · rw [e3]
    simp [LRUReplacer.Victim]
  · rw [e3]
    simp [LRUReplacer.Victim]

/-- C9 scenario: an empty replacer of capacity 3 (an `LRUReplacer(3)` as the
pool constructor builds for `pool_size = 3`). -/
def rC9 : LRUReplacer := { capacity := 3, lru_list := [] }

/-- C9 witness: frames 0, 1, 2 unpinned in order into the empty capacity-3
replacer; three successive victims are 0, 1, 2. -/
theorem lru_replacer_spec_witness :
    (((rC9.Unpin 0).Unpin 1).Unpin 2).lru_list = [2, 1, 0]
    ∧ (LRUReplacer.Victim (((rC9.Unpin 0).Unpin 1).Unpin 2)).1 = some 0
    ∧ (LRUReplacer.Victim
        (LRUReplacer.Victim (((rC9.Unpin 0).Unpin 1).Unpin 2)).2).1 = some 1
    ∧ (LRUReplacer.Victim (LRUReplacer.Victim
        (LRUReplacer.Victim (((rC9.Unpin 0).Unpin 1).Unpin 2)).2).2).1 = some 2 :=
  have h := lru_replacer_spec rC9 0 1 2 (by decide) rfl (by decide) (by decide)
    (by decide)
  ⟨h.2.2.1, h.2.2.2.1, h.2.2.2.2.1, h.2.2.2.2.2⟩

/-- C10: whenever `unpin` returns false, the pool state is unchanged (the
source's `UnpinPageImpl` contains no disk-manager call at all, which is why
the model gives it no `DiskState`); whenever `delete_page` returns false, the
pool state and the disk state — trace included, so no disk call — are
unchanged. -/
theorem error_paths_preserve_state (bpm : BufferPoolManager) (dm : DiskState)
    (pid : Int) (flag : Bool) :
    ((UnpinPageImpl bpm pid flag).1 = false → (UnpinPageImpl bpm pid flag).2 = bpm)
    ∧ ((DeletePageImpl bpm dm pid).1 = false →
        DeletePageImpl bpm dm pid = (false, bpm, dm)) := by
  constructor
  · intro h
    cases hl : ptLookup bpm.page_table_ pid with
    | none => simp [UnpinPageImpl, hl]
    | some f =>
      by_cases h0 : (getPage bpm.pages_ f).pin_count_ = 0
      · simp [UnpinPageImpl, hl, h0]
      · simp [UnpinPageImpl, hl, h0] at h
  · intro h
    cases hl : ptLookup bpm.page_table_ pid with
    | none => simp [DeletePageImpl, hl] at h
    | some f =>
      by_cases h0 : (getPage bpm.pages_ f).pin_count_ ≠ 0
      · simp [DeletePageImpl, hl, h0]
      · simp [DeletePageImpl, hl, h0] at h

/-- C10 scenario: page 5 resident at frame 0 with pin count 2; page 9 not
resident. -/
def bpmC10 : BufferPoolManager :=
  { pages_ := [{ page_id_ := 5, pin_count_ := 2, is_dirty_ := true, data_ := [3] }],
    page_table_ := [(5, 0)], free_list_ := [],
    replacer_ := { capacity := 1, lru_list := [] } }

def dmC10 : DiskState := { contents := [], next_page_id := 6, trace := [] }

/-- C10 witness: `unpin(9, false)` (absent page) and `delete_page(5)` (pinned
page) both fail on the concrete C10 pool and leave every component of the
state unchanged. -/
theorem error_paths_preserve_state_witness :
    (UnpinPageImpl bpmC10 9 false).1 = false
    ∧ (UnpinPageImpl bpmC10 9 false).2 = bpmC10
    ∧ DeletePageImpl bpmC10 dmC10 5 = (false, bpmC10, dmC10) :=
  ⟨rfl,
   (error_paths_preserve_state bpmC10 dmC10 9 false).1 rfl,
   (error_paths_preserve_state bpmC10 dmC10 5 false).2 rfl⟩
